import Mathlib

/-!
Shallow embedding of `src/connector.py`, a Fivetran connector for the US
Census population-projections API, together with theorems checking the
natural-language specification against it.

Modelling conventions:
* The JSON body of a successful response is a `List (List String)`
  (array of arrays of strings, as the Census API returns).
* A request either raises (`Except.error` with a message, covering HTTP
  error statuses raised by `raise_for_status`, connection errors and JSON
  parse errors) or returns a body (`Except.ok`).  The external world is a
  function `fetch : Nat → String → Resp` giving, for each loop iteration
  (0-based) and the URL requested in it, the outcome of that request.
* `datetime.utcnow().strftime(...)` is the parameter `t` (current_time).
* The input `state` dict is modelled by its only read key: an
  `Option String` holding `state['last_updated']` when present.
* Python's `int(...)` on a string is `pyInt`; on the integer default `0`
  it is the integer itself (see `fieldInt`).  `dict(zip(headers, row))`
  truncates to the shorter list and keeps the last value for a duplicated
  key, which `List.zip` plus the last-wins lookup `dictGet` reproduce.
* An exception anywhere inside the per-parameter-set `try` block (request,
  `data[0]` on an empty body, or an `int(...)` cast in the row loop)
  aborts that parameter set only: upserts already yielded stay yielded.
-/

namespace Census

/-- A successful JSON body or a raised exception message. -/
abbrev Resp := Except String (List (List String))

/-- One emitted record of the `population_projections` table
(source lines 103-113). -/
structure Record where
  year : Int
  race : String
  sex : String
  age : Int
  total_pop : Int
  last_updated : String
deriving DecidableEq

/-- An operation yielded by `update`: `op.upsert(table, data)` or
`op.checkpoint(state={"last_updated": ...})` (the checkpoint state dict is
modelled by its single value). -/
inductive Op where
  | upsert (table : String) (data : Record)
  | checkpoint (last_updated : String)
deriving DecidableEq

/-- The API key literal from source line 33. -/
def api_key : String := "ac259f7342449a3fcc5b1cfbed52e87e6adfde60"

/-- Source line 60. -/
def base_url : String := "https://api.census.gov/data/2017/popproj/pop"

/-- Source line 61: the static query string. -/
def query_params : String :=
  "?get=POP,YEAR,RACE,SEX,AGE&for=us:*&key=" ++ api_key

/-- Source lines 59-67: the URL built for a parameter set.  The loop that
would append the demographic filters (lines 64-65) is commented out in the
source, so the parameter set is ignored. -/
def buildUrl (_params : List (String × String)) : String :=
  base_url ++ query_params

/-- Source lines 44-53: the eight demographic parameter sets. -/
def demo_params : List (List (String × String)) :=
  [ [("YEAR", "1"), ("ORIGIN", "1"), ("RACE", "1"), ("SEX", "1"), ("AGE", "1")],
    [("YEAR", "1"), ("ORIGIN", "1"), ("RACE", "2"), ("SEX", "1"), ("AGE", "1")],
    [("YEAR", "1"), ("ORIGIN", "1"), ("RACE", "3"), ("SEX", "1"), ("AGE", "1")],
    [("YEAR", "1"), ("ORIGIN", "1"), ("RACE", "4"), ("SEX", "1"), ("AGE", "1")],
    [("YEAR", "1"), ("ORIGIN", "1"), ("RACE", "5"), ("SEX", "1"), ("AGE", "1")],
    [("YEAR", "1"), ("ORIGIN", "1"), ("RACE", "6"), ("SEX", "1"), ("AGE", "1")],
    [("YEAR", "1"), ("ORIGIN", "2"), ("RACE", "1"), ("SEX", "1"), ("AGE", "1")],
    [("YEAR", "1"), ("ORIGIN", "2"), ("RACE", "2"), ("SEX", "1"), ("AGE", "1")] ]

/-- Source line 96: the race code lookup dict. -/
def race_map : List (String × String) :=
  [("1", "White"), ("2", "Black"), ("3", "AIAN"), ("4", "Asian"),
   ("5", "NHPI"), ("6", "Two or More Races")]

/-- Source line 97: the sex code lookup dict. -/
def sex_map : List (String × String) := [("1", "Male"), ("2", "Female")]

/-- Python `dict` lookup on an association list built by insertion order:
the LAST binding of a key wins, absent keys give `none` (so `.get(k, d)`
is `(dictGet l k).getD d`). -/
def dictGet : List (String × String) → String → Option String
  | [], _ => none
  | (k, v) :: rest, key =>
    match dictGet rest key with
    | some v2 => some v2
    | none => if k = key then some v else none

/-- One maximal run of decimal digits possibly separated by single
underscores (Python allows `1_000`): validity of the tail after the first
digit. -/
def validDigitTail : List Char → Bool
  | [] => true
  | '_' :: rest =>
    match rest with
    | [] => false
    | c :: rest2 => c.isDigit && validDigitTail rest2
  | c :: rest => c.isDigit && validDigitTail rest

/-- A nonempty digit group, underscores allowed between digits. -/
def validDigitGroup : List Char → Bool
  | [] => false
  | c :: rest => c.isDigit && validDigitTail rest

/-- Numeric value of a digit group, skipping underscores. -/
def digitsValue (cs : List Char) : Nat :=
  cs.foldl (fun a c => if c = '_' then a else a * 10 + (c.toNat - '0'.toNat)) 0

/-- Python's `int(s)` for a string argument: strips surrounding
whitespace, allows one optional sign, then a nonempty digit group;
anything else raises `ValueError` (`none`). -/
def pyInt (s : String) : Option Int :=
  let cs := ((s.toList.dropWhile Char.isWhitespace).reverse.dropWhile
    Char.isWhitespace).reverse
  match cs with
  | '+' :: rest =>
    if validDigitGroup rest then some (digitsValue rest) else none
  | '-' :: rest =>
    if validDigitGroup rest then some (-(digitsValue rest : Int)) else none
  | rest =>
    if validDigitGroup rest then some (digitsValue rest) else none

/-- `int(row_dict.get(key, 0))` from source lines 89, 92, 93: an absent
key yields the integer default `0` directly; a present value is a string
passed to `int`, which may raise (`none`). -/
def fieldInt (d : List (String × String)) (key : String) : Option Int :=
  match dictGet d key with
  | none => some 0
  | some s => pyInt s

/-- Source lines 84-93 up to the casts: build `row_dict` from
`zip(headers, row)` and extract the five typed values in source order.
`none` means an `int(...)` cast raised. -/
def rowCore (headers row : List String) :
    Option (Int × String × String × Int × Int) := do
  let d := headers.zip row
  let year ← fieldInt d "YEAR"
  let race := (dictGet d "RACE").getD ""
  let sex := (dictGet d "SEX").getD ""
  let age ← fieldInt d "AGE"
  let pop ← fieldInt d "POP"
  pure (year, race, sex, age, pop)

/-- Source line 99: `race_map.get(race, race)`. -/
def raceStr (race : String) : String := (dictGet race_map race).getD race

/-- Source line 100: `sex_map.get(sex, sex)`. -/
def sexStr (sex : String) : String := (dictGet sex_map sex).getD sex

/-- The inner row loop (source lines 84-115) for one parameter set: each
row in order becomes one record; the first row whose casts raise aborts
the rest of the loop (the exception propagates to the per-set handler). -/
def rowsRecords (t : String) (headers : List String) :
    List (List String) → List Record
  | [] => []
  | row :: rest =>
    match rowCore headers row with
    | some (year, race, sex, age, pop) =>
      { year := year, race := raceStr race, sex := sexStr sex, age := age,
        total_pop := pop, last_updated := t } :: rowsRecords t headers rest
    | none => []

/-- Records produced from one parameter set's request outcome: a raised
request (or a body with no rows at all, where `data[0]` raises
`IndexError`) produces nothing; otherwise the first row is the header and
the rest are data rows (source lines 71-79). -/
def respRecords (t : String) : Resp → List Record
  | .error _ => []
  | .ok [] => []
  | .ok (headers :: rows) => rowsRecords t headers rows

/-- The upsert operations yielded for one parameter set
(source lines 103-113). -/
def runParamSetOps (t : String) (resp : Resp) : List Op :=
  (respRecords t resp).map (fun r => Op.upsert "population_projections" r)

/-- The `for params in demo_params` loop (source lines 57-118), carrying
the 0-based iteration index used to address `fetch`.  An exception in one
iteration is caught and contributes nothing; the loop continues. -/
def runSets (t : String) (fetch : Nat → String → Resp) :
    Nat → List (List (String × String)) → List Op
  | _, [] => []
  | i, params :: rest =>
    runParamSetOps t (fetch i (buildUrl params)) ++ runSets t fetch (i + 1) rest

/-- Source line 37: `state.get('last_updated', '2000-01-01T00:00:00Z')`. -/
def lastUpdatedCursor (state : Option String) : String :=
  state.getD "2000-01-01T00:00:00Z"

/-- Source lines 29-125: the whole `update` generator as the list of
operations it yields, given the input state, the current wall-clock
time `t` and the outcome of each request. -/
def update (state : Option String) (t : String)
    (fetch : Nat → String → Resp) : List Op :=
  let _last_updated_cursor := lastUpdatedCursor state
  runSets t fetch 0 demo_params ++ [Op.checkpoint t]

/-- The (year, race, sex, age) natural-key projection of a record. -/
def recordKey (r : Record) : Int × String × String × Int :=
  (r.year, r.race, r.sex, r.age)

/-- The key of an upsert operation; checkpoints have none. -/
def opKey : Op → Option (Int × String × String × Int)
  | .upsert _ d => some (recordKey d)
  | .checkpoint _ => none

/-- The keys of the upsert operations of a run, in emission order. -/
def upsertKeys (ops : List Op) : List (Int × String × String × Int) :=
  ops.filterMap opKey

/-- The `last_updated` value carried by an operation: the record field for
an upsert, the state value for a checkpoint. -/
def opLastUpdated : Op → String
  | .upsert _ d => d.last_updated
  | .checkpoint s => s

/-- The records of a whole run, parameter set by parameter set (the
record-level view of `runSets`). -/
def runRecords (t : String) (fetch : Nat → String → Resp) :
    Nat → List (List (String × String)) → List Record
  | _, [] => []
  | i, params :: rest =>
    respRecords t (fetch i (buildUrl params)) ++ runRecords t fetch (i + 1) rest

/-- A concrete environment in which the first two requests succeed with
the same one-data-row body (as happens in reality, since all eight
iterations request the same URL) and the rest raise. -/
def dupFetch : Nat → String → Resp := fun i _ =>
  if i < 2 then
    Except.ok [["POP", "YEAR", "RACE", "SEX", "AGE"],
               ["100", "2017", "1", "1", "0"]]
  else Except.error "HTTP 500"

/-- A concrete environment in which iteration 3 raises an HTTP error and
every other request succeeds with a one-data-row body. -/
def errFetch : Nat → String → Resp := fun i _ =>
  if i = 3 then Except.error "HTTP 404"
  else
    Except.ok [["POP", "YEAR", "RACE", "SEX", "AGE"],
               ["100", "2017", "1", "1", "0"]]

end Census

namespace Census

/-- Per-row record lengths: when every row's casts succeed, each data row
yields exactly one record. -/
theorem rowsRecords_length (t : String) (headers : List String) :
    ∀ rows : List (List String),
      (∀ row ∈ rows, (rowCore headers row).isSome) →
      (rowsRecords t headers rows).length = rows.length := by
  intro rows
  induction rows with
  | nil => intro _; rfl
  | cons row rest ih =>
    intro h
    obtain ⟨v, hv⟩ := Option.isSome_iff_exists.mp (h row (List.mem_cons_self _ _))
    obtain ⟨y, ra, sx, ag, pp⟩ := v
    simp [rowsRecords, hv, ih (fun r hr => h r (List.mem_cons_of_mem _ hr))]

/-- C2: for a parameter set whose request succeeds with a well-formed body
(a header row followed by data rows on which the `int(...)` casts all
succeed), the number of upsert operations yielded equals the length of the
response array minus one. -/
theorem C2_row_count (t : String) (headers : List String)
    (rows : List (List String))
    (h : ∀ row ∈ rows, (rowCore headers row).isSome) :
    (runParamSetOps t (Except.ok (headers :: rows))).length =
      (headers :: rows).length - 1 := by
  simp [runParamSetOps, respRecords, rowsRecords_length t headers rows h]

/-- Witness for C2 at a concrete two-data-row response. -/
theorem C2_row_count_witness :
    (∀ row ∈ [["100", "2017", "1", "1", "0"], ["200", "2017", "2", "2", "1"]],
      (rowCore ["POP", "YEAR", "RACE", "SEX", "AGE"] row).isSome) ∧
    (runParamSetOps "2025-01-01T00:00:00Z"
      (Except.ok (["POP", "YEAR", "RACE", "SEX", "AGE"] ::
        [["100", "2017", "1", "1", "0"], ["200", "2017", "2", "2", "1"]]))).length =
      (["POP", "YEAR", "RACE", "SEX", "AGE"] ::
        [["100", "2017", "1", "1", "0"], ["200", "2017", "2", "2", "1"]]).length - 1 :=
  ⟨by decide, C2_row_count _ _ _ (by decide)⟩

/-- C4: with no `last_updated` key in the input state the cursor read at
the start of `update` is the default `2000-01-01T00:00:00Z`, and for every
input state and every request outcome the run ends with a checkpoint
carrying the run's current wall-clock time `t`. -/
theorem C4_cursor_default_and_checkpoint :
    lastUpdatedCursor none = "2000-01-01T00:00:00Z" ∧
    ∀ (state : Option String) (t : String) (fetch : Nat → String → Resp),
      (update state t fetch).getLast? = some (Op.checkpoint t) := by
  refine ⟨rfl, fun state t fetch => ?_⟩
  rw [update]
  exact List.getLast?_concat _

/-- C5: the request URL is the same fixed string for each of the eight
demographic parameter sets; the parameter values never reach the query
string. -/
theorem C5_url_fixed :
    demo_params.map buildUrl =
      List.replicate 8
        "https://api.census.gov/data/2017/popproj/pop?get=POP,YEAR,RACE,SEX,AGE&for=us:*&key=ac259f7342449a3fcc5b1cfbed52e87e6adfde60" :=
  rfl

/-- C6: the race code translation sends "1".."6" to their labels (in
particular "2" to "Black") and passes any code outside the lookup table
through unchanged (in particular "9" stays "9"). -/
theorem C6_race_translation :
    raceStr "2" = "Black" ∧ raceStr "1" = "White" ∧ raceStr "3" = "AIAN" ∧
    raceStr "4" = "Asian" ∧ raceStr "5" = "NHPI" ∧
    raceStr "6" = "Two or More Races" ∧ raceStr "9" = "9" ∧
    ∀ race : String, dictGet race_map race = none → raceStr race = race := by
  refine ⟨rfl, rfl, rfl, rfl, rfl, rfl, rfl, fun race h => ?_⟩
  simp [raceStr, h]

/-- Witness for C6 discharging the pass-through hypothesis at "9". -/
theorem C6_race_translation_witness :
    dictGet race_map "9" = none ∧ raceStr "9" = "9" :=
  ⟨rfl, C6_race_translation.2.2.2.2.2.2.2 "9" rfl⟩

/-- C7: the sex code translation sends "1" to "Male" and "2" to "Female"
and passes any other code through unchanged. -/
theorem C7_sex_translation :
    sexStr "1" = "Male" ∧ sexStr "2" = "Female" ∧
    ∀ sex : String, dictGet sex_map sex = none → sexStr sex = sex := by
  refine ⟨rfl, rfl, fun sex h => ?_⟩
  simp [sexStr, h]

/-- Witness for C7 discharging the pass-through hypothesis at "0". -/
theorem C7_sex_translation_witness :
    dictGet sex_map "0" = none ∧ sexStr "0" = "0" :=
  ⟨rfl, C7_sex_translation.2.2 "0" rfl⟩

/-- C9: the input state never influences the output: with the same request
outcomes and the same wall-clock time, any two input states yield the same
sequence of operations (the cursor is read but never used). -/
theorem C9_state_noninterference (s1 s2 : Option String) (t : String)
    (fetch : Nat → String → Resp) :
    update s1 t fetch = update s2 t fetch := rfl

end Census

namespace Census

/-- Every record built by the row loop carries the run time `t`. -/
theorem rowsRecords_lastUpdated (t : String) (headers : List String) :
    ∀ (rows : List (List String)) (r : Record),
      r ∈ rowsRecords t headers rows → r.last_updated = t := by
  intro rows
  induction rows with
  | nil => intro r hr; simp [rowsRecords] at hr
  | cons row rest ih =>
    intro r hr
    cases hcore : rowCore headers row with
    | none => simp [rowsRecords, hcore] at hr
    | some v =>
      obtain ⟨y, ra, sx, ag, pp⟩ := v
      simp only [rowsRecords, hcore, List.mem_cons] at hr
      rcases hr with h1 | h2
      · rw [h1]
      · exact ih r h2

/-- Every record of one parameter set carries the run time `t`. -/
theorem respRecords_lastUpdated (t : String) (resp : Resp) :
    ∀ r ∈ respRecords t resp, r.last_updated = t := by
  intro r hr
  match resp with
  | .error e => simp [respRecords] at hr
  | .ok [] => simp [respRecords] at hr
  | .ok (headers :: rows) => exact rowsRecords_lastUpdated t headers rows r hr

/-- Every operation of the parameter-set loop carries the run time `t`. -/
theorem runSets_lastUpdated (t : String) (fetch : Nat → String → Resp) :
    ∀ (l : List (List (String × String))) (i : Nat) (op : Op),
      op ∈ runSets t fetch i l → opLastUpdated op = t := by
  intro l
  induction l with
  | nil => intro i op hop; simp [runSets] at hop
  | cons p rest ih =>
    intro i op hop
    simp only [runSets, List.mem_append] at hop
    rcases hop with h1 | h2
    · simp only [runParamSetOps, List.mem_map] at h1
      obtain ⟨r, hr, hop⟩ := h1
      rw [← hop]
      exact respRecords_lastUpdated t _ r hr
    · exact ih (i + 1) op h2

/-- C8: every operation yielded in one run of `update` — each upsert's
record and the final checkpoint alike — carries the same `last_updated`
value, the run's wall-clock time `t` computed once at the start. -/
theorem C8_uniform_last_updated (state : Option String) (t : String)
    (fetch : Nat → String → Resp) :
    (update state t fetch).all (fun op => opLastUpdated op == t) = true := by
  rw [List.all_eq_true]
  intro op hop
  simp only [update, List.mem_append, List.mem_singleton] at hop
  rcases hop with h1 | h2
  · simpa [beq_iff_eq] using runSets_lastUpdated t fetch demo_params 0 op h1
  · rw [h2]; simp [opLastUpdated]

/-- The keys of the upserts of a mapped record list. -/
theorem upsertKeys_map_upsert (tbl : String) :
    ∀ records : List Record,
      upsertKeys (records.map (fun r => Op.upsert tbl r)) =
        records.map recordKey := by
  intro records
  induction records with
  | nil => rfl
  | cons r rest ih =>
    simp only [List.map_cons, upsertKeys, List.filterMap_cons, opKey]
    rw [upsertKeys] at ih
    rw [ih]

/-- The keys of the upserts of the whole loop are exactly the key
projections of the run's records. -/
theorem upsertKeys_runSets (t : String) (fetch : Nat → String → Resp) :
    ∀ (l : List (List (String × String))) (i : Nat),
      upsertKeys (runSets t fetch i l) =
        (runRecords t fetch i l).map recordKey := by
  intro l
  induction l with
  | nil => intro i; rfl
  | cons p rest ih =>
    intro i
    simp only [runSets, runRecords, upsertKeys, List.filterMap_append,
      List.map_append]
    simp only [upsertKeys] at ih
    rw [ih (i + 1)]
    rw [show List.filterMap opKey (runParamSetOps t (fetch i (buildUrl p))) =
      upsertKeys (runParamSetOps t (fetch i (buildUrl p))) from rfl,
      runParamSetOps, upsertKeys_map_upsert]

/-- C1 (amended): the (year, race, sex, age) keys of the upserts emitted
in one run are exactly, in order, the key projections of the successfully
parsed data rows of the successful parameter sets — nothing in `update`
deduplicates them, so the keys repeat exactly when those projections do. -/
theorem C1_upsert_keys (state : Option String) (t : String)
    (fetch : Nat → String → Resp) :
    upsertKeys (update state t fetch) =
      (runRecords t fetch 0 demo_params).map recordKey := by
  simp only [update, upsertKeys, List.filterMap_append]
  rw [show List.filterMap opKey (runSets t fetch 0 demo_params) =
    upsertKeys (runSets t fetch 0 demo_params) from rfl,
    upsertKeys_runSets t fetch demo_params 0]
  simp [opKey]

/-- C1 (counterexample to the claim as stated): in an environment where
two parameter sets succeed with the same body, two distinct upsert
operations of one run carry the same (year, race, sex, age) key. -/
theorem C1_counterexample :
    upsertKeys (update none "2025-01-01T00:00:00Z" dupFetch) =
      [((2017 : Int), "White", "Male", (0 : Int)),
       ((2017 : Int), "White", "Male", (0 : Int))] ∧
    ¬ (upsertKeys (update none "2025-01-01T00:00:00Z" dupFetch)).Pairwise
        (fun a b => a ≠ b) := by
  have h : upsertKeys (update none "2025-01-01T00:00:00Z" dupFetch) =
      [((2017 : Int), "White", "Male", (0 : Int)),
       ((2017 : Int), "White", "Male", (0 : Int))] := by rfl
  refine ⟨h, ?_⟩
  rw [h]
  intro hp
  exact (List.pairwise_cons.mp hp).1 _ (List.mem_cons_self _ _) rfl

/-- Skipping lemma for the loop: if the request of the `i`-th remaining
iteration raises, that iteration contributes nothing and every other
iteration's contribution is unchanged. -/
theorem runSets_skip (t : String) (fetch : Nat → String → Resp) (e : String) :
    ∀ (l : List (List (String × String))) (i0 i : Nat), i < l.length →
      (∀ url, fetch (i0 + i) url = Except.error e) →
      runSets t fetch i0 l =
        runSets t fetch i0 (l.take i) ++
          runSets t fetch (i0 + i + 1) (l.drop (i + 1)) := by
  intro l
  induction l with
  | nil => intro i0 i hi _; exact absurd hi (by simp)
  | cons p rest ih =>
    intro i0 i hi h
    cases i with
    | zero =>
      have hf : fetch i0 (buildUrl p) = Except.error e := by
        simpa using h (buildUrl p)
      simp [runSets, runParamSetOps, respRecords, hf]
    | succ k =>
      have hk : k < rest.length := by
        simp only [List.length_cons] at hi; omega
      have h2 : ∀ url, fetch (i0 + 1 + k) url = Except.error e := by
        intro url
        have h3 := h url
        have harg : i0 + (k + 1) = i0 + 1 + k := by omega
        rwa [harg] at h3
      have harith : i0 + (k + 1) + 1 = i0 + 1 + k + 1 := by omega
      simp only [runSets, List.take_succ_cons, List.drop_succ_cons, harith,
        ih (i0 + 1) k hk h2, List.append_assoc]

/-- C3: if the request of parameter set `i` raises (any exception,
including an HTTP error status), that exception is caught: the run still
yields the upserts of every other parameter set, unchanged and in order,
followed by the final checkpoint — there is no run-level failure path. -/
theorem C3_error_isolation (state : Option String) (t : String)
    (fetch : Nat → String → Resp) (i : Nat) (e : String)
    (hi : i < demo_params.length)
    (h : ∀ url, fetch i url = Except.error e) :
    update state t fetch =
      runSets t fetch 0 (demo_params.take i) ++
        runSets t fetch (i + 1) (demo_params.drop (i + 1)) ++
        [Op.checkpoint t] := by
  have h0 : ∀ url, fetch (0 + i) url = Except.error e := by
    intro url; simpa using h url
  simp only [update]
  rw [runSets_skip t fetch e demo_params 0 i hi h0]
  simp [List.append_assoc]

/-- Witness for C3: iteration 3 raises an HTTP 404 in `errFetch`. -/
theorem C3_error_isolation_witness :
    (3 < demo_params.length ∧
      ∀ url, errFetch 3 url = Except.error "HTTP 404") ∧
    update none "2025-01-01T00:00:00Z" errFetch =
      runSets "2025-01-01T00:00:00Z" errFetch 0 (demo_params.take 3) ++
        runSets "2025-01-01T00:00:00Z" errFetch 4 (demo_params.drop 4) ++
        [Op.checkpoint "2025-01-01T00:00:00Z"] :=
  ⟨⟨by decide, fun _ => rfl⟩,
    C3_error_isolation none "2025-01-01T00:00:00Z" errFetch 3 "HTTP 404"
      (by decide) (fun _ => rfl)⟩

/-- C10: row-to-record construction is total on short or incomplete rows.
If the (possibly truncated) `zip(headers, row)` mapping gives YEAR, AGE
and POP values whose casts succeed — in particular whenever they are
absent, since an absent key takes the integer default 0 — then the row
still produces a record (no error is raised), race and sex default to the
empty string when absent, and each absent integer field is 0. -/
theorem C10_short_row_total (t : String) (headers row : List String)
    (hY : (fieldInt (headers.zip row) "YEAR").isSome)
    (hA : (fieldInt (headers.zip row) "AGE").isSome)
    (hP : (fieldInt (headers.zip row) "POP").isSome) :
    (rowsRecords t headers [row]).length = 1 ∧
    rowCore headers row =
      some ((fieldInt (headers.zip row) "YEAR").getD 0,
        (dictGet (headers.zip row) "RACE").getD "",
        (dictGet (headers.zip row) "SEX").getD "",
        (fieldInt (headers.zip row) "AGE").getD 0,
        (fieldInt (headers.zip row) "POP").getD 0) ∧
    (dictGet (headers.zip row) "YEAR" = none →
      (fieldInt (headers.zip row) "YEAR").getD 0 = 0) ∧
    (dictGet (headers.zip row) "AGE" = none →
      (fieldInt (headers.zip row) "AGE").getD 0 = 0) ∧
    (dictGet (headers.zip row) "POP" = none →
      (fieldInt (headers.zip row) "POP").getD 0 = 0) := by
  obtain ⟨y, hy⟩ := Option.isSome_iff_exists.mp hY
  obtain ⟨a, ha⟩ := Option.isSome_iff_exists.mp hA
  obtain ⟨p, hp⟩ := Option.isSome_iff_exists.mp hP
  have hcore : rowCore headers row =
      some (y, (dictGet (headers.zip row) "RACE").getD "",
        (dictGet (headers.zip row) "SEX").getD "", a, p) := by
    simp [rowCore, hy, ha, hp]
  refine ⟨?_, ?_, ?_, ?_, ?_⟩
  · simp [rowsRecords, hcore]
  · rw [hcore, hy, ha, hp]; rfl
  · intro h0; simp [fieldInt, h0]
  · intro h0; simp [fieldInt, h0]
  · intro h0; simp [fieldInt, h0]

/-- Witness for C10 at a row with only POP and YEAR present. -/
theorem C10_short_row_total_witness :
    ((fieldInt ((["POP", "YEAR", "RACE", "SEX", "AGE"]).zip
        ["100", "2017"]) "YEAR").isSome ∧
      (fieldInt ((["POP", "YEAR", "RACE", "SEX", "AGE"]).zip
        ["100", "2017"]) "AGE").isSome ∧
      (fieldInt ((["POP", "YEAR", "RACE", "SEX", "AGE"]).zip
        ["100", "2017"]) "POP").isSome) ∧
    rowCore ["POP", "YEAR", "RACE", "SEX", "AGE"] ["100", "2017"] =
      some ((2017 : Int), "", "", (0 : Int), (100 : Int)) :=
  ⟨⟨by decide, by decide, by decide⟩,
    by
      have h := C10_short_row_total "2025-01-01T00:00:00Z"
        ["POP", "YEAR", "RACE", "SEX", "AGE"] ["100", "2017"]
        (by decide) (by decide) (by decide)
      rw [h.2.1]; rfl⟩

end Census
